import Mathlib

/-!
Verification of the booking lifecycle engine of a rental-marketplace
backend (`bookings/service.js`).

The embedding models dates at day granularity as integers (the service
compares and iterates dates with luxon at day boundaries), money as
rationals, and the mutable stores (bookings, payments, properties,
availability slots, the redis lock keys) as explicit state threaded
through the operations.  The notification collaborator is modelled by a
boolean saying whether its call succeeds or rejects, since it is an
external dependency that may do either.  JavaScript `x || d` defaulting
on numbers (which replaces both `undefined` and `0` with the default) is
embedded by `jsOr`.
-/

namespace Rezo

/-- Error taxonomy of `utils/apiError.js` as used by the booking service,
plus `typeError` for a JavaScript runtime TypeError (field access on a
missing row) and `notifyFailed` for a rejection coming out of the
external notification collaborator. -/
inductive ApiError where
  | conflict (msg : String)
  | notFound (msg : String)
  | booking (msg : String)
  | validation (msg : String)
  | typeError (msg : String)
  | notifyFailed
  deriving DecidableEq, Repr

/-- One availability-ledger row (`AvailabilitySlot`): a priced date range
for one property with an available flag and an optional link to a
booking. -/
structure Slot where
  id : Nat
  propertyId : Nat
  startDate : Int
  endDate : Int
  price : ℚ
  isAvailable : Bool
  bookingId : Option Nat
  deriving DecidableEq, Repr

/-- One `Booking` row. -/
structure BookingRow where
  id : Nat
  propertyId : Nat
  tenantId : Nat
  startDate : Int
  endDate : Int
  totalPrice : ℚ
  status : String
  deriving DecidableEq, Repr

/-- One `Payment` row, keyed by its booking. -/
structure PaymentRow where
  bookingId : Nat
  amount : ℚ
  status : String
  refundAmount : Option ℚ
  deriving DecidableEq, Repr

/-- The property's cancellation policy; both fields may be absent. -/
structure CancellationPolicy where
  cancellationWindowHours : Option ℚ
  feePercentage : Option ℚ
  deriving DecidableEq, Repr

/-- One `Property` row, reduced to what the booking service reads. -/
structure PropertyRow where
  id : Nat
  cancellationPolicy : Option CancellationPolicy
  deriving DecidableEq, Repr

/-- The transactional store: the rows that `prisma.$transaction` reverts
when the callback rejects. -/
structure TxDB where
  bookings : List BookingRow
  payments : List PaymentRow
  properties : List PropertyRow
  slots : List Slot
  deriving DecidableEq, Repr

/-- Full world state: the transactional store plus the redis lock keys
(`property:id:lock`), which are NOT transactional: lock mutations survive
a transaction rollback. -/
structure World where
  db : TxDB
  locks : List Nat
  deriving DecidableEq, Repr

/-- Observable events of one `createBooking` execution, for the temporal
claims about lock discipline. -/
inductive Ev where
  | lockAcquired (propertyId : Nat)
  | lockReleased (propertyId : Nat)
  | txCommit
  | txRollback
  deriving DecidableEq, Repr

deriving instance DecidableEq for Except

/-- Embedding of JavaScript `x || d` on an optional numeric field: both
an absent field and a zero field fall back to the default. -/
def jsOr (v : Option ℚ) (dflt : ℚ) : ℚ :=
  match v with
  | none => dflt
  | some x => if x = 0 then dflt else x

/-- The constant `this.CANCELLATION_WINDOW` (hours). -/
def CANCELLATION_WINDOW : ℚ := 48

/-- The calendar days of the half-open window, as produced by
`Interval.fromDateTimes(start, end).splitBy(\x7b days: 1 \x7d)` taking each
piece's `.start`: the days `start, start+1, ..., end-1` (empty when
`start ≥ end`). -/
def dayList (startD endD : Int) : List Int :=
  (List.range (endD - startD).toNat).map (fun (i : Nat) => startD + (i : Int))

/-- The prisma query filter of `checkAvailabilityWithLock`:
`propertyId`, `startDate ≤ end`, `endDate ≥ start`, `isAvailable`. -/
def overlapsWindow (pid : Nat) (startD endD : Int) (s : Slot) : Bool :=
  s.propertyId == pid && decide (s.startDate ≤ endD) &&
    decide (startD ≤ s.endDate) && s.isAvailable

/-- The availability check of `BookingService.checkAvailabilityWithLock`:
query the available slots overlapping the window, throw Conflict
("Requested dates not fully available") if some returned slot is not
engulfed by the booking interval, throw Conflict ("No availability for
selected dates") if the query returned no slots, otherwise return the
queried slots. -/
def checkAvailabilityWithLock (slots : List Slot) (pid : Nat)
    (startD endD : Int) : Except ApiError (List Slot) :=
  let availability := slots.filter (overlapsWindow pid startD endD)
  if availability.all
      (fun s => decide (startD ≤ s.startDate) && decide (s.endDate ≤ endD)) then
    if availability.isEmpty then
      .error (.conflict ("No availability for selected dates"))
    else
      .ok availability
  else
    .error (.conflict ("Requested dates not fully available"))

/-- Per-slot action of one day's `updateMany` in
`updateAvailabilitySlots`: a slot of the property that covers the day
(`startDate ≤ day ≤ endDate`) and is available is flipped to
unavailable. -/
def markSlot (pid : Nat) (day : Int) (s : Slot) : Slot :=
  if s.propertyId == pid && decide (s.startDate ≤ day) &&
      decide (day ≤ s.endDate) && s.isAvailable then
    { s with isAvailable := false }
  else s

/-- One day's `updateMany` of `updateAvailabilitySlots`. -/
def markDayUnavailable (pid : Nat) (day : Int) (slots : List Slot) : List Slot :=
  slots.map (markSlot pid day)

/-- Embedding of `BookingService.updateAvailabilitySlots`: for each
calendar day of the half-open window, flip every available covering slot
of the property to unavailable. -/
def updateAvailabilitySlots (pid : Nat) (startD endD : Int)
    (slots : List Slot) : List Slot :=
  (dayList startD endD).foldl (fun acc day => markDayUnavailable pid day acc) slots

/-- Per-slot action of the single `updateMany` in
`releaseAvailabilitySlots`: a slot of the property wholly contained in
the closed range (`startDate ≥ start` and `endDate ≤ end`) is set
available, whatever its previous flag. -/
def releaseSlot (pid : Nat) (startD endD : Int) (s : Slot) : Slot :=
  if s.propertyId == pid && decide (startD ≤ s.startDate) &&
      decide (s.endDate ≤ endD) then
    { s with isAvailable := true }
  else s

/-- Embedding of `BookingService.releaseAvailabilitySlots`. -/
def releaseAvailabilitySlots (pid : Nat) (startD endD : Int)
    (slots : List Slot) : List Slot :=
  slots.map (releaseSlot pid startD endD)

/-- Daily rate lookup inside `calculateTotalPrice`:
`availability.find(slot => day >= slot.startDate && day < slot.endDate)?.price || 0`. -/
def dailyRate (availability : List Slot) (day : Int) : ℚ :=
  match availability.find?
      (fun s => decide (s.startDate ≤ day) && decide (day < s.endDate)) with
  | some s => if s.price = 0 then 0 else s.price
  | none => 0

/-- The day-iteration loop of `calculateTotalPrice`, with the number of
remaining days as fuel. -/
def priceLoop (availability : List Slot) : Int → Nat → ℚ
  | _, 0 => 0
  | day, Nat.succ n => dailyRate availability day + priceLoop availability (day + 1) n

/-- Embedding of `BookingService.calculateTotalPrice`: iterate each day
of the half-open window and accumulate the first matching slot's price,
zero when no slot matches. -/
def calculateTotalPrice (availability : List Slot) (startD endD : Int) : ℚ :=
  priceLoop availability startD (endD - startD).toNat

/-- Result of the JavaScript member lookup
`validTransitions[currentStatus]` on the plain object literal: an own
data property holding an array of allowed targets, a non-nullish member
inherited from `Object.prototype` (a function, or the prototype object
for `__proto__`) that has no `includes`, or `undefined`. -/
inductive JsMember where
  | own (allowed : List String)
  | inherited
  | absent
  deriving DecidableEq, Repr

/-- The own property names of `Object.prototype`, inherited by every
plain object literal: indexing the transition table with one of these
yields a non-nullish value, so `?.` does not short-circuit. -/
def objectProtoMembers : List String :=
  ["constructor", "hasOwnProperty", "isPrototypeOf", "propertyIsEnumerable",
   "toLocaleString", "toString", "valueOf", "__defineGetter__",
   "__defineSetter__", "__lookupGetter__", "__lookupSetter__", "__proto__"]

/-- The transition-table lookup of `validateStateTransition`, including
prototype-chain inheritance of the object literal: the four own keys
yield their arrays, an `Object.prototype` property name yields an
inherited non-nullish member, any other string yields `undefined`. -/
def validTransitions (st : String) : JsMember :=
  if st == "PENDING" then .own ["CONFIRMED", "CANCELLED"]
  else if st == "CONFIRMED" then .own ["COMPLETED", "CANCELLED"]
  else if st == "CANCELLED" then .own []
  else if st == "COMPLETED" then .own []
  else if objectProtoMembers.contains st then .inherited
  else .absent

/-- The error message template of `validateStateTransition`. -/
def invalidTransitionMsg (cur next : String) : String :=
  "Invalid status transition: " ++ cur ++ " → " ++ next

/-- Embedding of `BookingService.validateStateTransition`:
`validTransitions[currentStatus]?.includes(newStatus)` must be truthy,
otherwise a `BookingError` naming the attempted pair is thrown.  On an
own key the array decides; on `undefined` the optional chain
short-circuits to a falsy value and the `BookingError` is thrown; on an
inherited `Object.prototype` member the chain does not short-circuit and
calling the absent `includes` throws a TypeError instead. -/
def validateStateTransition (cur next : String) : Except ApiError Unit :=
  match validTransitions cur with
  | .own allowed =>
      if allowed.contains next then .ok ()
      else .error (.booking (invalidTransitionMsg cur next))
  | .inherited => .error (.typeError ("includes is not a function"))
  | .absent => .error (.booking (invalidTransitionMsg cur next))

/-- Hours between "now" and the booking's check-in
(`DateTime.fromJSDate(booking.startDate).diffNow("hours").hours`), with
day-valued dates converted to hours. -/
def hoursUntilCheckin (nowHours : ℚ) (b : BookingRow) : ℚ :=
  (b.startDate : ℚ) * 24 - nowHours

/-- Embedding of `BookingService.calculateCancellationFee`.  `policy` is
`booking.property.cancellationPolicy` (possibly null); "now" is passed
explicitly.  Inside the window the fee is
`totalPrice * (policy.feePercentage || 0.5)`, otherwise `0`. -/
def calculateCancellationFee (nowHours : ℚ) (b : BookingRow)
    (policy : Option CancellationPolicy) : ℚ :=
  let p := policy.getD ⟨none, none⟩
  if hoursUntilCheckin nowHours b <
      jsOr p.cancellationWindowHours CANCELLATION_WINDOW then
    b.totalPrice * jsOr p.feePercentage (1 / 2)
  else 0

/-- Embedding of `BookingService.createBooking`.  The whole body runs in
`prisma.$transaction`; a rejection of the callback rolls back the store
rows but not the redis lock keys.  Inside the callback: acquire the
property lock (`SET key locked PX 5000 NX`, failing with Conflict when
the key exists), then in a try/finally run the availability check, price
computation, booking+payment insert, ledger update and the awaited
notification call (`confirmOk` says whether the external collaborator's
promise resolves or rejects); the finally clause deletes the lock key.
Returns the result, the final world and the event trace. -/
def createBooking (confirmOk : Bool) (pid uid : Nat) (startD endD : Int)
    (nextId : Nat) (w : World) : Except ApiError BookingRow × World × List Ev :=
  if w.locks.contains pid then
    (.error (.conflict ("Property is currently being modified")), w, [Ev.txRollback])
  else
    let locks1 := pid :: w.locks
    match checkAvailabilityWithLock w.db.slots pid startD endD with
    | .error e =>
        (.error e, { db := w.db, locks := locks1.erase pid },
          [Ev.lockAcquired pid, Ev.lockReleased pid, Ev.txRollback])
    | .ok availability =>
        let totalPrice := calculateTotalPrice availability startD endD
        let bk : BookingRow :=
          { id := nextId, propertyId := pid, tenantId := uid,
            startDate := startD, endDate := endD,
            totalPrice := totalPrice, status := "PENDING" }
        let pay : PaymentRow :=
          { bookingId := nextId, amount := totalPrice,
            status := "PENDING", refundAmount := none }
        let db2 : TxDB :=
          { bookings := w.db.bookings ++ [bk],
            payments := w.db.payments ++ [pay],
            properties := w.db.properties,
            slots := updateAvailabilitySlots pid startD endD w.db.slots }
        if confirmOk then
          (.ok bk, { db := db2, locks := locks1.erase pid },
            [Ev.lockAcquired pid, Ev.lockReleased pid, Ev.txCommit])
        else
          (.error .notifyFailed, { db := w.db, locks := locks1.erase pid },
            [Ev.lockAcquired pid, Ev.lockReleased pid, Ev.txRollback])

/-- Fallback rows for total lookups of rows that are known to exist. -/
def dummyBooking : BookingRow :=
  { id := 0, propertyId := 0, tenantId := 0, startDate := 0, endDate := 0,
    totalPrice := 0, status := "" }

/-- Fallback payment row, see `dummyBooking`. -/
def dummyPayment : PaymentRow :=
  { bookingId := 0, amount := 0, status := "", refundAmount := none }

/-- Fallback property row, see `dummyBooking`. -/
def dummyProperty : PropertyRow :=
  { id := 0, cancellationPolicy := none }

/-- The booking row `cancelBooking` loads for a given id. -/
def bookingOf (w : World) (bid : Nat) : BookingRow :=
  (w.db.bookings.find? (fun b => b.id == bid)).getD dummyBooking

/-- The payment row `cancelBooking` loads alongside the booking. -/
def paymentOf (w : World) (bid : Nat) : PaymentRow :=
  (w.db.payments.find? (fun p => p.bookingId == bid)).getD dummyPayment

/-- The cancellation policy `cancelBooking` reads from the booking's
property. -/
def policyOf (w : World) (bid : Nat) : Option CancellationPolicy :=
  ((w.db.properties.find?
      (fun p => p.id == (bookingOf w bid).propertyId)).getD dummyProperty).cancellationPolicy

/-- Embedding of `BookingService.cancelBooking`: inside its own
transaction (no property lock), load the booking with payment and
policy, authorize the tenant, validate the transition to CANCELLED,
compute the fee, then update the booking row to CANCELLED and the
payment row to REFUNDED with `refundAmount = amount - fee` while
releasing the ledger range; finally await the cancellation notice
(`cancelOk` says whether that external call resolves; a rejection rolls
the transaction back). -/
def cancelBooking (cancelOk : Bool) (nowHours : ℚ) (bid uid : Nat)
    (w : World) : Except ApiError BookingRow × World :=
  match w.db.bookings.find? (fun b => b.id == bid) with
  | none => (.error (.notFound ("Booking not found")), w)
  | some booking =>
    if booking.tenantId ≠ uid then
      (.error (.booking ("Unauthorized")), w)
    else
      match validateStateTransition booking.status "CANCELLED" with
      | .error e => (.error e, w)
      | .ok _ =>
        match w.db.properties.find? (fun p => p.id == booking.propertyId) with
        | none => (.error (.typeError ("cancellationPolicy of undefined")), w)
        | some prop =>
          match w.db.payments.find? (fun p => p.bookingId == bid) with
          | none => (.error (.typeError ("amount of undefined")), w)
          | some payment =>
            let fee := calculateCancellationFee nowHours booking prop.cancellationPolicy
            let updatedBooking := { booking with status := "CANCELLED" }
            let db1 : TxDB :=
              { bookings := w.db.bookings.map
                  (fun b => if b.id == bid then updatedBooking else b),
                payments := w.db.payments.map
                  (fun p => if p.bookingId == bid then
                      { p with
                        status := "REFUNDED",
                        refundAmount := some (payment.amount - fee) }
                    else p),
                properties := w.db.properties,
                slots := releaseAvailabilitySlots booking.propertyId
                  booking.startDate booking.endDate w.db.slots }
            if cancelOk then (.ok updatedBooking, { w with db := db1 })
            else (.error .notifyFailed, w)

/-- One bulk request, as accepted by `processBulkBookings`. -/
structure BulkReq where
  propertyId : Nat
  startDate : Int
  endDate : Int
  deriving DecidableEq, Repr

/-- One per-item result of `processBulkBookings`:
`\x7b success: true, value \x7d` or `\x7b success: false, error \x7d`. -/
structure BulkResult where
  success : Bool
  value : Option BookingRow
  error : Option ApiError
  deriving DecidableEq, Repr

/-- One item of the bulk fan-out:
`createBooking(...).then(value => ...).catch(error => ...)` — every
outcome of `createBooking`, success or failure of any kind, is captured
as a per-item result. -/
def bulkItem (confirmOk : Bool) (uid nextId : Nat) (w : World)
    (r : BulkReq) : BulkResult × World × Nat :=
  let out := createBooking confirmOk r.propertyId uid r.startDate r.endDate nextId w
  match out.1 with
  | .ok b => (⟨true, some b, none⟩, out.2.1, nextId + 1)
  | .error e => (⟨false, none, some e⟩, out.2.1, nextId)

/-- Embedding of `BookingService.processBulkBookings`: each request runs
through `createBooking` with its error captured per item
(`Promise.allSettled` over the p-queue keeps results in input order);
the embedding linearizes the bounded-concurrency pool, threading the
store from one item to the next. -/
def processBulkBookings (confirmOk : Bool) (uid : Nat) :
    List BulkReq → Nat → World → List BulkResult × World × Nat
  | [], nid, w => ([], w, nid)
  | r :: rs, nid, w =>
    let step := bulkItem confirmOk uid nid w r
    let rest := processBulkBookings confirmOk uid rs step.2.2 step.2.1
    (step.1 :: rest.1, rest.2)

/-- Specification-side day price (claim C4): the price of the first slot
in the list whose half-open range contains the day, zero when no slot
matches.  Written from the claim's words, to be compared with the
`?.price || 0` lookup of the source. -/
def specDayPrice (slots : List Slot) (day : Int) : ℚ :=
  match slots.find?
      (fun s => decide (s.startDate ≤ day) && decide (day < s.endDate)) with
  | some s => s.price
  | none => 0

/-- Specification-side cancellation window (amended claim C3): the
policy's `cancellationWindowHours` when present and nonzero, else 48. -/
def specWindow : Option CancellationPolicy → ℚ
  | none => 48
  | some q =>
    match q.cancellationWindowHours with
    | none => 48
    | some v => if v = 0 then 48 else v

/-- Specification-side fee rate (amended claim C3): the policy's
`feePercentage` when present and nonzero, else one half. -/
def specFeeRate : Option CancellationPolicy → ℚ
  | none => 1 / 2
  | some q =>
    match q.feePercentage with
    | none => 1 / 2
    | some v => if v = 0 then 1 / 2 else v

/-- Fixture for claim C1: a single available slot of property 1 covering
only day 0. -/
def gapSlot : Slot := ⟨0, 1, 0, 1, 100, true, none⟩

/-- Fixture world for claim C7: property 1 with one bookable day. -/
def notifyWorld : World :=
  ⟨⟨[], [], [⟨1, none⟩], [⟨0, 1, 0, 1, 100, true, none⟩]⟩, []⟩

/-- Fixture world for the claim C2 counterexample: slot `A` (id 0) is
available on day 0, slot `B` (id 1) is UNAVAILABLE on day 1, both inside
the window `[0, 2)` of property 1. -/
def roundTripWorld : World :=
  ⟨⟨[], [], [⟨1, none⟩],
    [⟨0, 1, 0, 1, 100, true, none⟩, ⟨1, 1, 1, 2, 50, false, none⟩]⟩, []⟩

/-- Fixture world for the claim C2 witness: one available slot exactly
spanning the window. -/
def cleanWorld : World :=
  ⟨⟨[], [], [⟨1, none⟩], [⟨0, 1, 0, 2, 100, true, none⟩]⟩, []⟩

/-- Fixture world for the claim C3 witness: a PENDING booking of tenant
7 with its payment and a policy of window 48 h and fee rate 1/4. -/
def feeWorld : World :=
  ⟨⟨[⟨5, 1, 7, 10, 12, 300, "PENDING"⟩], [⟨5, 300, "PENDING", none⟩],
    [⟨1, some ⟨some 48, some (1 / 4)⟩⟩], []⟩, []⟩

/-- Fixture slots for the claim C4 witness: three nights priced 100,
100, 120 (the spec's worked example totalling 320). -/
def threeNights : List Slot :=
  [⟨0, 1, 0, 1, 100, true, none⟩, ⟨1, 1, 1, 2, 100, true, none⟩,
   ⟨2, 1, 2, 3, 120, true, none⟩]

/-- Fixture world for the claim C8 witness: property 1 already locked,
so a creation attempt fails with the busy conflict. -/
def lockedWorld : World := ⟨⟨[], [], [], []⟩, [1]⟩

/-! Helper lemmas. -/

/-- Closed form of the state machine: a transition is accepted exactly
on the four table entries; any other pair yields the named BookingError,
except that an unknown status naming an `Object.prototype` member yields
the TypeError of calling the missing `includes`. -/
theorem validateStateTransition_eq (f t : String) :
    validateStateTransition f t =
      (if (f = "PENDING" ∧ (t = "CONFIRMED" ∨ t = "CANCELLED")) ∨
          (f = "CONFIRMED" ∧ (t = "COMPLETED" ∨ t = "CANCELLED"))
       then .ok ()
       else if f ∈ objectProtoMembers then
         .error (.typeError ("includes is not a function"))
       else .error (.booking (invalidTransitionMsg f t))) := by
  have hP : "PENDING" ∉ objectProtoMembers := by decide
  have hCf : "CONFIRMED" ∉ objectProtoMembers := by decide
  have hCx : "CANCELLED" ∉ objectProtoMembers := by decide
  have hCp : "COMPLETED" ∉ objectProtoMembers := by decide
  unfold validateStateTransition validTransitions
  by_cases h1 : f = "PENDING"
  · subst h1
    by_cases u1 : t = "CONFIRMED" <;> by_cases u2 : t = "CANCELLED" <;>
      simp [u1, u2, hP, List.contains]
  · by_cases h2 : f = "CONFIRMED"
    · subst h2
      by_cases u1 : t = "COMPLETED" <;> by_cases u2 : t = "CANCELLED" <;>
        simp [u1, u2, hCf, List.contains]
    · by_cases h3 : f = "CANCELLED"
      · subst h3; simp [hCx, List.contains]
      · by_cases h4 : f = "COMPLETED"
        · subst h4; simp [hCp, List.contains]
        · by_cases hm : f ∈ objectProtoMembers
          · simp [h1, h2, h3, h4, hm]
          · simp [h1, h2, h3, h4, hm]

/-! Theorems for the claims. -/

/-- Claim C1 (code_bug evidence): the availability check of
`createBooking` does not perform the coverage check the claim states.
At the failing input — property 1 with a single available slot covering
only day 0, and a requested window `[0, 3)` — the check succeeds and
returns the slot, although day 2 lies in the window and is covered by no
returned slot (under the half-open or the closed reading alike), where
the claim requires a ConflictError ("requested dates not fully
available"). -/
theorem checkAvailability_accepts_gap :
    checkAvailabilityWithLock [gapSlot] 1 0 3 = .ok [gapSlot] ∧
    ((0 : Int) ≤ 2 ∧ (2 : Int) < 3) ∧
    ([gapSlot].all (fun s =>
      !(decide (s.startDate ≤ 2) && decide ((2 : Int) < s.endDate)))) = true ∧
    ([gapSlot].all (fun s =>
      !(decide (s.startDate ≤ 2) && decide ((2 : Int) ≤ s.endDate)))) = true := by
  decide

/-- Claim C7 (code_bug evidence): `queueBookingConfirmation` is awaited
inside the `createBooking` transaction with no error handling, so when
the notification collaborator rejects, the whole transaction rolls back:
no booking or payment row and no ledger flip is committed.  The same
input with a succeeding collaborator commits the booking. -/
theorem createBooking_notify_failure_rolls_back :
    (createBooking false 1 7 0 1 100 notifyWorld).1 = .error .notifyFailed ∧
    (createBooking false 1 7 0 1 100 notifyWorld).2.1 = notifyWorld ∧
    (createBooking true 1 7 0 1 100 notifyWorld).1.isOk = true ∧
    (createBooking true 1 7 0 1 100 notifyWorld).2.1.db.bookings.length = 1 ∧
    (createBooking true 1 7 0 1 100 notifyWorld).2.1.db.slots.map
        Slot.isAvailable = [false] := by
  decide

/-- Claim C5 (confirmed): `validateStateTransition` succeeds exactly on
the four-entry table; every other pair gives a BookingError naming the
attempted pair — over the state machine's statuses unconditionally, and
over arbitrary strings with the sole exception of an unknown status
naming an `Object.prototype` member, where the inherited member makes
`?.includes` throw a TypeError — and `cancelBooking` (whose target is
always CANCELLED) is rejected with the named error when the loaded
booking's status is terminal (CANCELLED or COMPLETED). -/
theorem validateStateTransition_table : ∀ f t : String,
    (validateStateTransition f t = .ok () ↔
      ((f = "PENDING" ∧ (t = "CONFIRMED" ∨ t = "CANCELLED")) ∨
       (f = "CONFIRMED" ∧ (t = "COMPLETED" ∨ t = "CANCELLED")))) ∧
    (validateStateTransition f t = .ok () ∨
      validateStateTransition f t =
        .error (.booking (invalidTransitionMsg f t)) ∨
      (f ∈ objectProtoMembers ∧
        validateStateTransition f t =
          .error (.typeError ("includes is not a function")))) ∧
    (∀ g ∈ (["PENDING", "CONFIRMED", "ACTIVE", "COMPLETED", "CANCELLED",
        "REFUNDED"] : List String),
      validateStateTransition g t = .ok () ∨
      validateStateTransition g t =
        .error (.booking (invalidTransitionMsg g t))) ∧
    (∀ cOk nowH bid uid w bk,
      w.db.bookings.find? (fun b => b.id == bid) = some bk →
      bk.tenantId = uid →
      (bk.status = "CANCELLED" ∨ bk.status = "COMPLETED") →
      (cancelBooking cOk nowH bid uid w).1 =
        .error (.booking (invalidTransitionMsg bk.status "CANCELLED"))) := by
  intro f t
  refine ⟨?_, ?_, ?_, ?_⟩
  · rw [validateStateTransition_eq]
    by_cases h : (f = "PENDING" ∧ (t = "CONFIRMED" ∨ t = "CANCELLED")) ∨
        (f = "CONFIRMED" ∧ (t = "COMPLETED" ∨ t = "CANCELLED"))
    · simp [h]
    · by_cases hm : f ∈ objectProtoMembers
      · simp [h, hm]
      · simp [h, hm]
  · rw [validateStateTransition_eq]
    by_cases h : (f = "PENDING" ∧ (t = "CONFIRMED" ∨ t = "CANCELLED")) ∨
        (f = "CONFIRMED" ∧ (t = "COMPLETED" ∨ t = "CANCELLED"))
    · simp [h]
    · by_cases hm : f ∈ objectProtoMembers
      · refine Or.inr (Or.inr ⟨hm, ?_⟩)
        simp [h, hm]
      · refine Or.inr (Or.inl ?_)
        simp [h, hm]
  · intro g hg
    have hgp : g ∉ objectProtoMembers := by
      simp only [List.mem_cons, List.not_mem_nil, or_false] at hg
      rcases hg with rfl | rfl | rfl | rfl | rfl | rfl <;> decide
    rw [validateStateTransition_eq]
    by_cases h : (g = "PENDING" ∧ (t = "CONFIRMED" ∨ t = "CANCELLED")) ∨
        (g = "CONFIRMED" ∧ (t = "COMPLETED" ∨ t = "CANCELLED"))
    · left; simp [h]
    · right; simp [h, hgp]
  · intro cOk nowH bid uid w bk hfind htenant hstatus
    have ht' : ¬ (bk.tenantId ≠ uid) := by simp [htenant]
    have hv : validateStateTransition bk.status "CANCELLED" =
        .error (.booking (invalidTransitionMsg bk.status "CANCELLED")) := by
      rw [validateStateTransition_eq]
      rcases hstatus with h | h <;> rw [h] <;> decide
    unfold cancelBooking
    simp only [hfind, if_neg ht', hv]

/-- Witness for C5 at the spec's own example pair: PENDING to CANCELLED
succeeds and CANCELLED to CONFIRMED fails with the named error. -/
theorem validateStateTransition_table_witness :
    validateStateTransition "PENDING" "CANCELLED" = .ok () ∧
    validateStateTransition "CANCELLED" "CONFIRMED" =
      .error (.booking (invalidTransitionMsg "CANCELLED" "CONFIRMED")) := by
  constructor
  · exact (validateStateTransition_table "PENDING" "CANCELLED").1.mpr
      (Or.inl ⟨rfl, Or.inr rfl⟩)
  · rcases (validateStateTransition_table "CANCELLED" "CONFIRMED").2.1 with
      h | h | h
    · exact absurd ((validateStateTransition_table "CANCELLED" "CONFIRMED").1.mp h)
        (by simp)
    · exact h
    · exact absurd h.1 (by decide)

/-- Counterexample to claim C9 as stated: the status "constructor" is
not one of the four table keys, yet `validTransitions["constructor"]` is
the inherited non-nullish `Object.prototype.constructor`, so `?.` does
not short-circuit and calling the missing `includes` throws a TypeError
— a different kind of error than the BookingError the claim asserts for
every unknown string. -/
theorem validateStateTransition_proto_counterexample :
    validateStateTransition "constructor" "CONFIRMED" =
      .error (.typeError ("includes is not a function")) ∧
    (ApiError.typeError ("includes is not a function")) ≠
      (ApiError.booking (invalidTransitionMsg "constructor" "CONFIRMED")) := by
  constructor
  · decide
  · decide

/-- Claim C9 (amended): for a status outside the four table keys,
`validateStateTransition` never succeeds for any target; it throws the
named BookingError whenever that status is not an `Object.prototype`
property name (this covers the spec-listed ACTIVE and REFUNDED), and
throws a TypeError — from calling `includes` on the inherited member —
when it is one (constructor, toString, `__proto__`, ...).  Either way
such bookings behave as terminal: no transition out of them ever
validates. -/
theorem validateStateTransition_unknown_terminal : ∀ f : String,
    f ≠ "PENDING" → f ≠ "CONFIRMED" → f ≠ "CANCELLED" → f ≠ "COMPLETED" →
    ∀ t,
    (f ∉ objectProtoMembers →
      validateStateTransition f t =
        .error (.booking (invalidTransitionMsg f t))) ∧
    (f ∈ objectProtoMembers →
      validateStateTransition f t =
        .error (.typeError ("includes is not a function"))) ∧
    validateStateTransition f t ≠ .ok () := by
  intro f h1 h2 h3 h4 t
  have hc1 : ¬ ((f = "PENDING" ∧ (t = "CONFIRMED" ∨ t = "CANCELLED")) ∨
      (f = "CONFIRMED" ∧ (t = "COMPLETED" ∨ t = "CANCELLED"))) := by
    rintro (⟨hf, _⟩ | ⟨hf, _⟩)
    · exact h1 hf
    · exact h2 hf
  refine ⟨?_, ?_, ?_⟩
  · intro hm
    rw [validateStateTransition_eq, if_neg hc1, if_neg hm]
  · intro hm
    rw [validateStateTransition_eq, if_neg hc1, if_pos hm]
  · rw [validateStateTransition_eq, if_neg hc1]
    by_cases hm : f ∈ objectProtoMembers
    · simp [hm]
    · simp [hm]

/-- Witness for C9 at the spec-listed statuses ACTIVE and REFUNDED (the
named BookingError) and at "constructor" (the TypeError). -/
theorem validateStateTransition_unknown_terminal_witness :
    validateStateTransition "ACTIVE" "CONFIRMED" =
      .error (.booking (invalidTransitionMsg "ACTIVE" "CONFIRMED")) ∧
    validateStateTransition "REFUNDED" "CANCELLED" =
      .error (.booking (invalidTransitionMsg "REFUNDED" "CANCELLED")) ∧
    validateStateTransition "constructor" "CONFIRMED" =
      .error (.typeError ("includes is not a function")) ∧
    validateStateTransition "ACTIVE" "CONFIRMED" ≠ .ok () := by
  refine ⟨?_, ?_, ?_, ?_⟩
  · exact ((validateStateTransition_unknown_terminal "ACTIVE"
      (by decide) (by decide) (by decide) (by decide)) "CONFIRMED").1 (by decide)
  · exact ((validateStateTransition_unknown_terminal "REFUNDED"
      (by decide) (by decide) (by decide) (by decide)) "CANCELLED").1 (by decide)
  · exact ((validateStateTransition_unknown_terminal "constructor"
      (by decide) (by decide) (by decide) (by decide)) "CONFIRMED").2.1 (by decide)
  · exact ((validateStateTransition_unknown_terminal "ACTIVE"
      (by decide) (by decide) (by decide) (by decide)) "CONFIRMED").2.2

/-- Propositional form of one slot's release action. -/
theorem releaseSlot_eq (pid : Nat) (sD eD : Int) (s : Slot) :
    releaseSlot pid sD eD s =
      if s.propertyId = pid ∧ sD ≤ s.startDate ∧ s.endDate ≤ eD
      then { s with isAvailable := true } else s := by
  unfold releaseSlot
  by_cases h : s.propertyId = pid ∧ sD ≤ s.startDate ∧ s.endDate ≤ eD
  · rw [if_pos h, if_pos]
    simp [h.1, h.2.1, h.2.2]
  · rw [if_neg h, if_neg]
    intro hc
    simp only [Bool.and_eq_true, beq_iff_eq, decide_eq_true_eq] at hc
    exact h ⟨hc.1.1, hc.1.2, hc.2⟩

/-- Claim C10 (confirmed): `releaseAvailabilitySlots` sets
`isAvailable := true` on exactly the slots of the property wholly
contained in the closed range (`startDate ≥ start`, `endDate ≤ end`),
irrespective of their previous flag or booking link, and leaves every
other slot — including merely overlapping ones — unchanged in place. -/
theorem releaseAvailabilitySlots_frame : ∀ (pid : Nat) (sD eD : Int)
    (slots : List Slot),
    (releaseAvailabilitySlots pid sD eD slots).length = slots.length ∧
    ∀ i : Nat, (releaseAvailabilitySlots pid sD eD slots)[i]? =
      (slots[i]?).map (fun s =>
        if s.propertyId = pid ∧ sD ≤ s.startDate ∧ s.endDate ≤ eD
        then { s with isAvailable := true } else s) := by
  intro pid sD eD slots
  constructor
  · simp [releaseAvailabilitySlots]
  · intro i
    simp only [releaseAvailabilitySlots, List.getElem?_map]
    cases slots[i]? with
    | none => rfl
    | some s => simp [releaseSlot_eq]

/-- The `?.price || 0` lookup agrees with the claim-side day price: the
JavaScript `|| 0` only collapses a zero price to zero. -/
theorem dailyRate_eq_specDayPrice (slots : List Slot) (d : Int) :
    dailyRate slots d = specDayPrice slots d := by
  unfold dailyRate specDayPrice
  cases h : slots.find?
      (fun s => decide (s.startDate ≤ d) && decide (d < s.endDate)) with
  | none => rfl
  | some s =>
    by_cases hp : s.price = 0
    · simp [hp]
    · simp [hp]

/-- The day loop of `calculateTotalPrice` as an indexed sum. -/
theorem priceLoop_eq_sum (slots : List Slot) : ∀ (n : Nat) (d : Int),
    priceLoop slots d n = ∑ i ∈ Finset.range n, dailyRate slots (d + i) := by
  intro n
  induction n with
  | zero => intro d; simp [priceLoop]
  | succ m ih =>
    intro d
    rw [priceLoop, ih (d + 1), Finset.sum_range_succ', add_comm]
    congr 1
    · exact Finset.sum_congr rfl (fun i _ => by push_cast; ring_nf)
    · simp

/-- Claim C4 (confirmed): for `startDate < endDate`,
`calculateTotalPrice` equals the sum over each calendar day of the
half-open window of the price of the slot whose range contains that day,
a day matched by no slot contributing zero. -/
theorem calculateTotalPrice_spec : ∀ (slots : List Slot) (sD eD : Int),
    sD < eD →
    (calculateTotalPrice slots sD eD =
      ∑ i ∈ Finset.range (eD - sD).toNat, specDayPrice slots (sD + i)) ∧
    (∀ d : Int, (∀ s ∈ slots, ¬ (s.startDate ≤ d ∧ d < s.endDate)) →
      specDayPrice slots d = 0) := by
  intro slots sD eD _h
  constructor
  · unfold calculateTotalPrice
    rw [priceLoop_eq_sum]
    exact Finset.sum_congr rfl (fun i _ => dailyRate_eq_specDayPrice slots (sD + i))
  · intro d hd
    unfold specDayPrice
    have hnone : slots.find?
        (fun s => decide (s.startDate ≤ d) && decide (d < s.endDate)) = none := by
      rw [List.find?_eq_none]
      intro s hs
      simp only [Bool.and_eq_true, decide_eq_true_eq]
      exact fun hc => hd s hs hc
    rw [hnone]

/-- Witness for C4 on the spec's worked example: three nights priced
100, 100, 120 over `[0, 3)` total 320. -/
theorem calculateTotalPrice_spec_witness :
    (0 : Int) < 3 ∧
    calculateTotalPrice threeNights 0 3 =
      ∑ i ∈ Finset.range ((3 : Int) - 0).toNat, specDayPrice threeNights (0 + i) ∧
    calculateTotalPrice threeNights 0 3 = 320 := by
  refine ⟨by decide, (calculateTotalPrice_spec threeNights 0 3 (by decide)).1, ?_⟩
  norm_num [calculateTotalPrice, priceLoop, dailyRate, threeNights, List.find?]

/-- Counterexample to claim C3 as stated: a policy that is present and
sets `feePercentage` to 0 (a free cancellation) is inside the window,
yet the code charges half the total price, because `|| 0.5` replaces a
present-but-zero rate just like an absent one; the claim's fee
`totalPrice * feePercentage = 300 * 0 = 0` differs. -/
theorem calculateCancellationFee_zero_rate_counterexample :
    calculateCancellationFee 14 ⟨0, 1, 7, 1, 3, 300, "PENDING"⟩
      (some ⟨some 48, some 0⟩) = 150 ∧
    (150 : ℚ) ≠ 300 * 0 := by
  constructor
  · norm_num [calculateCancellationFee, hoursUntilCheckin, jsOr, CANCELLATION_WINDOW]
  · norm_num

/-- Closed form of the fee computation against the claim-side defaults
(defaults apply when a policy field is absent OR zero). -/
theorem calculateCancellationFee_formula :
    ∀ (nowH : ℚ) (b : BookingRow) (p : Option CancellationPolicy),
    calculateCancellationFee nowH b p =
      (if hoursUntilCheckin nowH b < specWindow p
       then b.totalPrice * specFeeRate p else 0) := by
  intro nowH b p
  rcases p with _ | ⟨cw, fp⟩
  · simp [calculateCancellationFee, specWindow, specFeeRate, jsOr,
      CANCELLATION_WINDOW]
  · rcases cw with _ | v <;> rcases fp with _ | u <;>
      simp [calculateCancellationFee, specWindow, specFeeRate, jsOr,
        CANCELLATION_WINDOW]

/-- Claim C3 (amended): the fee is
`totalPrice * feePercentage` when the hours until check-in are below the
policy window and `0` otherwise, where the defaults 0.5 and 48 apply
when the respective field is absent OR zero (JavaScript `||` on a falsy
number); and a committed `cancelBooking` records
`refundAmount = payment.amount - fee` on the booking's payment row. -/
theorem calculateCancellationFee_spec :
    (∀ (nowH : ℚ) (b : BookingRow) (p : Option CancellationPolicy),
      calculateCancellationFee nowH b p =
        (if hoursUntilCheckin nowH b < specWindow p
         then b.totalPrice * specFeeRate p else 0)) ∧
    (∀ (nowH : ℚ) (b : BookingRow) (p : Option CancellationPolicy),
      specWindow p ≤ hoursUntilCheckin nowH b →
      calculateCancellationFee nowH b p = 0) ∧
    (∀ (nowH : ℚ) (bid uid : Nat) (w : World),
      (cancelBooking true nowH bid uid w).1.isOk = true →
      (cancelBooking true nowH bid uid w).2.db.payments =
        w.db.payments.map (fun x =>
          if x.bookingId == bid then
            { x with
              status := "REFUNDED",
              refundAmount := some ((paymentOf w bid).amount -
                calculateCancellationFee nowH (bookingOf w bid) (policyOf w bid)) }
          else x)) := by
  refine ⟨calculateCancellationFee_formula, ?_, ?_⟩
  · intro nowH b p hge
    rw [calculateCancellationFee_formula, if_neg (not_lt.mpr hge)]
  · intro nowH bid uid w h
    unfold cancelBooking at h ⊢
    cases hb : w.db.bookings.find? (fun b => b.id == bid) with
    | none => simp [hb, Except.isOk, Except.toBool] at h
    | some bk =>
      by_cases ht : bk.tenantId ≠ uid
      · simp [hb, if_pos ht, Except.isOk, Except.toBool] at h
      · cases hv : validateStateTransition bk.status "CANCELLED" with
        | error e => simp [hb, if_neg ht, hv, Except.isOk, Except.toBool] at h
        | ok u =>
          cases hp : w.db.properties.find? (fun p => p.id == bk.propertyId) with
          | none => simp [hb, if_neg ht, hv, hp, Except.isOk, Except.toBool] at h
          | some prop =>
            cases hpay : w.db.payments.find? (fun p => p.bookingId == bid) with
            | none =>
              simp [hb, if_neg ht, hv, hp, hpay, Except.isOk, Except.toBool] at h
            | some pay =>
              have e1 : bookingOf w bid = bk := by simp [bookingOf, hb]
              have e2 : paymentOf w bid = pay := by simp [paymentOf, hpay]
              have e3 : policyOf w bid = prop.cancellationPolicy := by
                simp [policyOf, bookingOf, hb, hp]
              simp [hb, if_neg ht, hv, hp, hpay, e1, e2, e3]

/-- Witness for C3 at a concrete committed cancellation (window 48 h,
rate 1/4, 10 hours before check-in). -/
theorem calculateCancellationFee_spec_witness :
    (cancelBooking true 230 5 7 feeWorld).2.db.payments =
      feeWorld.db.payments.map (fun x =>
        if x.bookingId == 5 then
          { x with
            status := "REFUNDED",
            refundAmount := some ((paymentOf feeWorld 5).amount -
              calculateCancellationFee 230 (bookingOf feeWorld 5)
                (policyOf feeWorld 5)) }
        else x) :=
  calculateCancellationFee_spec.2.2 230 5 7 feeWorld (by decide)

/-- Counterexample to claim C6 as stated: in a committed run the event
trace is acquire, release, commit — the release (the `finally` clause of
the transaction callback) happens BEFORE the commit, and no release
occurs after the commit. -/
theorem createBooking_release_before_commit_counterexample :
    (createBooking true 1 7 0 2 100 cleanWorld).2.2 =
      [Ev.lockAcquired 1, Ev.lockReleased 1, Ev.txCommit] ∧
    ((createBooking true 1 7 0 2 100 cleanWorld).2.2.dropWhile
        (fun ev => !(ev == Ev.txCommit))).tail.count (Ev.lockReleased 1) = 0 ∧
    (createBooking true 1 7 0 2 100 cleanWorld).2.2.count (Ev.lockReleased 1) = 1 := by
  decide

/-- Guard evaluation: a lock-acquire event is not a transaction-end event. -/
theorem acquiredGuard (q : Nat) :
    (!(Ev.lockAcquired q == Ev.txCommit) && !(Ev.lockAcquired q == Ev.txRollback)) = true := rfl

/-- Guard evaluation: a lock-release event is not a transaction-end event. -/
theorem releasedGuard (q : Nat) :
    (!(Ev.lockReleased q == Ev.txCommit) && !(Ev.lockReleased q == Ev.txRollback)) = true := rfl

/-- Guard evaluation: a commit ends the pre-transaction-end prefix. -/
theorem commitGuard :
    (!(Ev.txCommit == Ev.txCommit) && !(Ev.txCommit == Ev.txRollback)) = false := rfl

/-- Guard evaluation: a rollback ends the pre-transaction-end prefix. -/
theorem rollbackGuard :
    (!(Ev.txRollback == Ev.txCommit) && !(Ev.txRollback == Ev.txRollback)) = false := rfl

/-- Claim C6 (amended): in every `createBooking` execution that acquired
the property lock, the lock is released exactly once, unconditionally on
success and on every failure path — but the release happens inside the
transaction callback, BEFORE the transaction commits or rolls back, not
after the commit. -/
theorem createBooking_lock_discipline :
    ∀ (c : Bool) (pid uid : Nat) (sD eD : Int) (nid : Nat) (w : World),
    (createBooking c pid uid sD eD nid w).2.2.contains (Ev.lockAcquired pid) = true →
    ((createBooking c pid uid sD eD nid w).2.2.count (Ev.lockReleased pid) = 1 ∧
     ((createBooking c pid uid sD eD nid w).2.2.takeWhile
        (fun ev => !(ev == Ev.txCommit) && !(ev == Ev.txRollback))).count
        (Ev.lockReleased pid) = 1) := by
  intro c pid uid sD eD nid w
  unfold createBooking
  by_cases hl : w.locks.contains pid = true
  · rw [if_pos hl]
    intro h
    simp [List.contains] at h
  · rw [if_neg hl]
    cases hc : checkAvailabilityWithLock w.db.slots pid sD eD with
    | error e =>
      intro _
      constructor <;>
        simp [List.count_cons, List.takeWhile, List.count_nil,
          acquiredGuard, releasedGuard, commitGuard, rollbackGuard]
    | ok av =>
      cases c with
      | true =>
        intro _
        constructor <;>
          simp [List.count_cons, List.takeWhile, List.count_nil,
            acquiredGuard, releasedGuard, commitGuard, rollbackGuard]
      | false =>
        intro _
        constructor <;>
          simp [List.count_cons, List.takeWhile, List.count_nil,
            acquiredGuard, releasedGuard, commitGuard, rollbackGuard]

/-- Witness for C6: a committed run in which the lock was acquired,
released exactly once, and released before the transaction ended. -/
theorem createBooking_lock_discipline_witness :
    (createBooking true 1 7 0 2 100 cleanWorld).2.2.contains
      (Ev.lockAcquired 1) = true ∧
    ((createBooking true 1 7 0 2 100 cleanWorld).2.2.count
      (Ev.lockReleased 1) = 1 ∧
     ((createBooking true 1 7 0 2 100 cleanWorld).2.2.takeWhile
        (fun ev => !(ev == Ev.txCommit) && !(ev == Ev.txRollback))).count
        (Ev.lockReleased 1) = 1) :=
  ⟨by decide, createBooking_lock_discipline true 1 7 0 2 100 cleanWorld (by decide)⟩

/-- A failed `createBooking` leaves the world unchanged: its transaction
rolls back the store and the acquired lock (if any) was deleted by the
finally clause. -/
theorem createBooking_error_world (c : Bool) (pid uid : Nat) (sD eD : Int)
    (nid : Nat) (w : World) (e : ApiError)
    (h : (createBooking c pid uid sD eD nid w).1 = .error e) :
    (createBooking c pid uid sD eD nid w).2.1 = w := by
  unfold createBooking at h ⊢
  by_cases hl : w.locks.contains pid = true
  · rw [if_pos hl]
  · rw [if_neg hl] at h ⊢
    cases hc : checkAvailabilityWithLock w.db.slots pid sD eD with
    | error e2 =>
      simp only [hc]
      simp [List.erase_cons_head]
    | ok av =>
      cases c with
      | false =>
        simp only [hc]
        simp [List.erase_cons_head]
      | true =>
        simp only [hc] at h
        simp at h

/-- A bulk item whose creation fails yields the captured error result
and passes the unchanged world on. -/
theorem bulkItem_error (c : Bool) (uid nid : Nat) (w : World) (r : BulkReq)
    (e : ApiError)
    (h : (createBooking c r.propertyId uid r.startDate r.endDate nid w).1 = .error e) :
    bulkItem c uid nid w r = (⟨false, none, some e⟩, w, nid) := by
  simp only [bulkItem]
  rw [h, createBooking_error_world c r.propertyId uid r.startDate r.endDate nid w e h]

/-- A bulk item whose creation succeeds yields the success result and
passes the post-creation world on. -/
theorem bulkItem_ok (c : Bool) (uid nid : Nat) (w : World) (r : BulkReq)
    (b : BookingRow) (w1 : World) (tr : List Ev)
    (h : createBooking c r.propertyId uid r.startDate r.endDate nid w = (.ok b, w1, tr)) :
    bulkItem c uid nid w r = (⟨true, some b, none⟩, w1, nid + 1) := by
  simp only [bulkItem]
  rw [h]

/-- Claim C8 (confirmed): `processBulkBookings` returns exactly one
result per request in input order; an item whose `createBooking` throws
contributes `\x7b success: false, error \x7d` and leaves the world passed to
its sibling requests unchanged (no cross-item cancellation or rollback),
and an item whose creation succeeds contributes
`\x7b success: true, value \x7d`. -/
theorem processBulkBookings_spec :
    ∀ (c : Bool) (uid : Nat),
    (∀ (rs : List BulkReq) (nid : Nat) (w : World),
      (processBulkBookings c uid rs nid w).1.length = rs.length) ∧
    (∀ (r : BulkReq) (rs : List BulkReq) (nid : Nat) (w : World) (e : ApiError),
      (createBooking c r.propertyId uid r.startDate r.endDate nid w).1 = .error e →
      processBulkBookings c uid (r :: rs) nid w =
        (⟨false, none, some e⟩ :: (processBulkBookings c uid rs nid w).1,
         (processBulkBookings c uid rs nid w).2)) ∧
    (∀ (r : BulkReq) (rs : List BulkReq) (nid : Nat) (w : World)
        (b : BookingRow) (w1 : World) (tr : List Ev),
      createBooking c r.propertyId uid r.startDate r.endDate nid w = (.ok b, w1, tr) →
      processBulkBookings c uid (r :: rs) nid w =
        (⟨true, some b, none⟩ :: (processBulkBookings c uid rs (nid + 1) w1).1,
         (processBulkBookings c uid rs (nid + 1) w1).2)) := by
  intro c uid
  refine ⟨?_, ?_, ?_⟩
  · intro rs
    induction rs with
    | nil => intro nid w; rfl
    | cons r rs ih =>
      intro nid w
      simp only [processBulkBookings, List.length_cons]
      rw [ih]
  · intro r rs nid w e h
    simp only [processBulkBookings]
    rw [bulkItem_error c uid nid w r e h]
  · intro r rs nid w b w1 tr h
    simp only [processBulkBookings]
    rw [bulkItem_ok c uid nid w r b w1 tr h]

/-- Witness for C8: a single request against an already-locked property
is captured as a per-item conflict failure, leaving the world as it
was. -/
theorem processBulkBookings_spec_witness :
    processBulkBookings true 7 [⟨1, 0, 1⟩] 100 lockedWorld =
      ([⟨false, none,
          some (.conflict ("Property is currently being modified"))⟩],
        lockedWorld, 100) := by
  have h : (createBooking true (1 : Nat) 7 0 1 100 lockedWorld).1 =
      .error (.conflict ("Property is currently being modified")) := by decide
  have hmain := (processBulkBookings_spec true 7).2.1 ⟨1, 0, 1⟩ [] 100 lockedWorld
    (.conflict ("Property is currently being modified")) h
  simpa [processBulkBookings] using hmain

/-- Pushing one day's mark through the effect of the remaining days: a
slot already flipped stays flipped, an untouched slot is flipped exactly
when some processed day is covered while it is available. -/
theorem markSlot_fold_step (pid : Nat) (d : Int) (ds : List Int) (s : Slot) :
    (if (markSlot pid d s).propertyId == pid && (markSlot pid d s).isAvailable &&
        ds.any (fun d2 => decide ((markSlot pid d s).startDate ≤ d2) &&
          decide (d2 ≤ (markSlot pid d s).endDate))
     then { markSlot pid d s with isAvailable := false } else markSlot pid d s) =
    (if s.propertyId == pid && s.isAvailable &&
        (d :: ds).any (fun d2 => decide (s.startDate ≤ d2) && decide (d2 ≤ s.endDate))
     then { s with isAvailable := false } else s) := by
  cases hp : (s.propertyId == pid) <;> cases ha : s.isAvailable <;>
    cases hd1 : decide (s.startDate ≤ d) <;> cases hd2 : decide (d ≤ s.endDate) <;>
    simp [markSlot, hp, ha, hd1, hd2]

/-- Pointwise effect of `updateAvailabilitySlots`: a slot is flipped to
unavailable exactly when it belongs to the property, was available, and
covers some calendar day of the window; all other slots are untouched. -/
theorem updateAvailabilitySlots_getElem? (pid : Nat) (sD eD : Int)
    (l : List Slot) (i : Nat) :
    (updateAvailabilitySlots pid sD eD l)[i]? =
      l[i]?.map (fun s =>
        if s.propertyId == pid && s.isAvailable &&
            (dayList sD eD).any
              (fun d => decide (s.startDate ≤ d) && decide (d ≤ s.endDate))
        then { s with isAvailable := false } else s) := by
  unfold updateAvailabilitySlots
  generalize dayList sD eD = ds
  induction ds generalizing l with
  | nil =>
    cases hli : l[i]? <;> simp [hli]
  | cons d ds ih =>
    rw [List.foldl_cons, ih (markDayUnavailable pid d l)]
    simp only [markDayUnavailable, List.getElem?_map, Option.map_map]
    cases hli : l[i]? with
    | none => rfl
    | some s =>
      simp only [Option.map_some', Function.comp]
      exact congrArg some (markSlot_fold_step pid d ds s)

/-- Searching an appended list skips a prefix on which the predicate is
everywhere false. -/
theorem find?_append_right {α : Type} (p : α → Bool) (l1 l2 : List α)
    (h : ∀ x ∈ l1, p x = false) : (l1 ++ l2).find? p = l2.find? p := by
  induction l1 with
  | nil => rfl
  | cons a l ih =>
    rw [List.cons_append, List.find?_cons_of_neg]
    · exact ih (fun x hx => h x (List.mem_cons_of_mem a hx))
    · simp [h a (List.mem_cons_self a l)]

/-- When the availability check succeeds, every available slot of the
property overlapping the queried window is engulfed by it (the check
throws on any slot sticking out of the window). -/
theorem checkAvailability_ok_contained (slots : List Slot) (pid : Nat)
    (sD eD : Int) (av : List Slot)
    (h : checkAvailabilityWithLock slots pid sD eD = .ok av) :
    ∀ s ∈ slots, overlapsWindow pid sD eD s = true →
      sD ≤ s.startDate ∧ s.endDate ≤ eD := by
  unfold checkAvailabilityWithLock at h
  by_cases hall : ((slots.filter (overlapsWindow pid sD eD)).all
      (fun s => decide (sD ≤ s.startDate) && decide (s.endDate ≤ eD))) = true
  · intro s hs hov
    have hmem : s ∈ slots.filter (overlapsWindow pid sD eD) :=
      List.mem_filter.mpr ⟨hs, hov⟩
    have hcond := List.all_eq_true.mp hall s hmem
    simp only [Bool.and_eq_true, decide_eq_true_eq] at hcond
    exact hcond
  · rw [if_neg hall] at h
    simp at h

/-- An available slot of the property that covers some day of the
window satisfies the overlap query of the availability check. -/
theorem coversDay_overlap (pid : Nat) (sD eD : Int) (s : Slot)
    (hpid : s.propertyId = pid) (hav : s.isAvailable = true)
    (hd : ((dayList sD eD).any
      (fun d => decide (s.startDate ≤ d) && decide (d ≤ s.endDate))) = true) :
    overlapsWindow pid sD eD s = true := by
  obtain ⟨d, hdmem, hcond⟩ := List.any_eq_true.mp hd
  simp only [Bool.and_eq_true, decide_eq_true_eq] at hcond
  rw [dayList] at hdmem
  obtain ⟨i, hirange, hieq⟩ := List.mem_map.mp hdmem
  have hi : i < (eD - sD).toNat := List.mem_range.mp hirange
  unfold overlapsWindow
  simp only [Bool.and_eq_true, beq_iff_eq, decide_eq_true_eq]
  refine ⟨⟨⟨hpid, ?_⟩, ?_⟩, hav⟩ <;> omega

/-- Releasing after marking gives the same ledger as releasing alone,
provided (as the availability check guarantees) every available slot of
the property overlapping the window is contained in it: every slot the
marking flipped is inside the released range. -/
theorem release_update_slots (pid : Nat) (sD eD : Int) (l : List Slot)
    (hgood : ∀ s ∈ l, overlapsWindow pid sD eD s = true →
      sD ≤ s.startDate ∧ s.endDate ≤ eD) :
    releaseAvailabilitySlots pid sD eD (updateAvailabilitySlots pid sD eD l) =
      releaseAvailabilitySlots pid sD eD l := by
  apply List.ext_getElem?
  intro i
  simp only [releaseAvailabilitySlots, List.getElem?_map,
    updateAvailabilitySlots_getElem?, Option.map_map]
  cases hli : l[i]? with
  | none => rfl
  | some s =>
    have hs : s ∈ l := List.getElem?_mem hli
    simp only [Option.map_some', Function.comp]
    refine congrArg some ?_
    by_cases hcond : (s.propertyId == pid && s.isAvailable &&
        (dayList sD eD).any
          (fun d => decide (s.startDate ≤ d) && decide (d ≤ s.endDate))) = true
    · rw [if_pos hcond]
      have hcond' := hcond
      simp only [Bool.and_eq_true, beq_iff_eq] at hcond'
      obtain ⟨⟨hpid, hav⟩, hany⟩ := hcond'
      have hov := coversDay_overlap pid sD eD s hpid hav hany
      have hcont := hgood s hs hov
      rw [releaseSlot_eq, releaseSlot_eq]
      simp [hpid, hcont.1, hcont.2]
    · rw [if_neg hcond]

/-- Characterization of a committed `createBooking`: with the lock free,
a passing availability check and a resolving notification, the run
inserts the booking and payment rows, marks the window unavailable,
nets the lock out and commits. -/
theorem createBooking_ok_world (pid uid : Nat) (sD eD : Int) (nid : Nat)
    (w : World) (av : List Slot)
    (hl : w.locks.contains pid = false)
    (hc : checkAvailabilityWithLock w.db.slots pid sD eD = .ok av) :
    createBooking true pid uid sD eD nid w =
      (.ok ⟨nid, pid, uid, sD, eD, calculateTotalPrice av sD eD, "PENDING"⟩,
       ⟨⟨w.db.bookings ++
            [⟨nid, pid, uid, sD, eD, calculateTotalPrice av sD eD, "PENDING"⟩],
         w.db.payments ++ [⟨nid, calculateTotalPrice av sD eD, "PENDING", none⟩],
         w.db.properties,
         updateAvailabilitySlots pid sD eD w.db.slots⟩, w.locks⟩,
       [Ev.lockAcquired pid, Ev.lockReleased pid, Ev.txCommit]) := by
  unfold createBooking
  have hl2 : ¬ (w.locks.contains pid = true) := by rw [hl]; simp
  rw [if_neg hl2]
  simp only [hc]
  simp [List.erase_cons_head]

/-- Cancelling a freshly inserted PENDING booking by its tenant
succeeds and releases the booked range on the ledger. -/
theorem cancelBooking_fresh (nowH : ℚ) (nid uid pid : Nat) (sD eD : Int)
    (tp : ℚ) (B : List BookingRow) (P : List PaymentRow)
    (PR : List PropertyRow) (S : List Slot) (L : List Nat)
    (hB : ∀ br ∈ B, ((fun b => b.id == nid) br) = false)
    (hP : ∀ pr2 ∈ P, ((fun p => p.bookingId == nid) pr2) = false)
    (hPR : (PR.find? (fun p => p.id == pid)).isSome = true) :
    (cancelBooking true nowH nid uid
      ⟨⟨B ++ [⟨nid, pid, uid, sD, eD, tp, "PENDING"⟩],
        P ++ [⟨nid, tp, "PENDING", none⟩], PR, S⟩, L⟩).1.isOk = true ∧
    (cancelBooking true nowH nid uid
      ⟨⟨B ++ [⟨nid, pid, uid, sD, eD, tp, "PENDING"⟩],
        P ++ [⟨nid, tp, "PENDING", none⟩], PR, S⟩, L⟩).2.db.slots =
      releaseAvailabilitySlots pid sD eD S := by
  obtain ⟨prop, hprop⟩ := Option.isSome_iff_exists.mp hPR
  have hfb : (B ++ [(⟨nid, pid, uid, sD, eD, tp, "PENDING"⟩ : BookingRow)]).find?
      (fun b => b.id == nid) =
      some ⟨nid, pid, uid, sD, eD, tp, "PENDING"⟩ := by
    rw [find?_append_right _ _ _ hB]
    simp
  have hfp : (P ++ [(⟨nid, tp, "PENDING", none⟩ : PaymentRow)]).find?
      (fun p => p.bookingId == nid) = some ⟨nid, tp, "PENDING", none⟩ := by
    rw [find?_append_right _ _ _ hP]
    simp
  unfold cancelBooking
  simp only [hfb]
  rw [if_neg (by simp)]
  have hv : validateStateTransition
      (BookingRow.mk nid pid uid sD eD tp "PENDING").status "CANCELLED" =
      .ok () := rfl
  simp only [hv, hprop, hfp]
  constructor
  · rfl
  · rfl

/-- Counterexample to claim C2 as stated: in `roundTripWorld` slot B
(day 1, inside the booked window `[0, 2)`) is UNAVAILABLE before the
booking is created; creation leaves it untouched, but cancellation
releases every slot contained in the window irrespective of its prior
state, so after create-then-cancel slot B is available — the round trip
is not the identity on the availability flags. -/
theorem create_cancel_not_identity :
    (createBooking true 1 7 0 2 100 roundTripWorld).1.isOk = true ∧
    (cancelBooking true 0 100 7
        (createBooking true 1 7 0 2 100 roundTripWorld).2.1).1.isOk = true ∧
    roundTripWorld.db.slots.map Slot.isAvailable = [true, false] ∧
    (cancelBooking true 0 100 7
        (createBooking true 1 7 0 2 100 roundTripWorld).2.1).2.db.slots.map
      Slot.isAvailable = [true, true] := by
  refine ⟨by decide, by decide, by decide, by decide⟩

/-- Claim C2 (amended): after a committed `createBooking` over
`[startDate, endDate)` (with a fresh booking id and the property row
present), `cancelBooking` by the same tenant commits and leaves the
ledger equal to `releaseAvailabilitySlots` applied to the ORIGINAL
ledger: every slot the creation flipped from available to unavailable is
flipped back (creation only ever flips slots engulfed by the window),
but any slot of the property contained in the window becomes available
even if it was unavailable before creation; the round trip is the
identity on availability flags only when all such contained slots were
available beforehand. -/
theorem createBooking_cancelBooking_roundTrip :
    ∀ (pid uid : Nat) (sD eD : Int) (nid : Nat) (w : World) (nowH : ℚ),
    (w.db.bookings.all (fun br => br.id != nid)) = true →
    (w.db.payments.all (fun pr2 => pr2.bookingId != nid)) = true →
    ((w.db.properties.find? (fun p => p.id == pid)).isSome) = true →
    ((createBooking true pid uid sD eD nid w).1.isOk) = true →
    ((cancelBooking true nowH nid uid
        (createBooking true pid uid sD eD nid w).2.1).1.isOk = true ∧
     (cancelBooking true nowH nid uid
        (createBooking true pid uid sD eD nid w).2.1).2.db.slots =
       releaseAvailabilitySlots pid sD eD w.db.slots) := by
  intro pid uid sD eD nid w nowH hfb hfp hprop hok
  by_cases hl : w.locks.contains pid = true
  · exfalso
    unfold createBooking at hok
    rw [if_pos hl] at hok
    simp [Except.isOk, Except.toBool] at hok
  · have hl' : w.locks.contains pid = false := by
      cases hval : w.locks.contains pid
      · rfl
      · exact absurd hval hl
    cases hc : checkAvailabilityWithLock w.db.slots pid sD eD with
    | error e =>
      exfalso
      unfold createBooking at hok
      rw [if_neg hl] at hok
      simp only [hc] at hok
      simp [Except.isOk, Except.toBool] at hok
    | ok av =>
      rw [createBooking_ok_world pid uid sD eD nid w av hl' hc]
      have hB : ∀ br ∈ w.db.bookings, ((fun b => b.id == nid) br) = false := by
        intro br hbr
        have hbr2 := List.all_eq_true.mp hfb br hbr
        simpa using hbr2
      have hP : ∀ pr2 ∈ w.db.payments,
          ((fun p => p.bookingId == nid) pr2) = false := by
        intro pr2 hpr2
        have hpr3 := List.all_eq_true.mp hfp pr2 hpr2
        simpa using hpr3
      have hfresh := cancelBooking_fresh nowH nid uid pid sD eD
        (calculateTotalPrice av sD eD) w.db.bookings w.db.payments
        w.db.properties (updateAvailabilitySlots pid sD eD w.db.slots)
        w.locks hB hP hprop
      refine ⟨hfresh.1, hfresh.2.trans ?_⟩
      exact release_update_slots pid sD eD w.db.slots
        (checkAvailability_ok_contained w.db.slots pid sD eD av hc)

/-- Witness for C2 on a clean one-slot world: the round trip commits and
the final ledger equals the released original ledger. -/
theorem createBooking_cancelBooking_roundTrip_witness :
    (cancelBooking true 0 100 7
        (createBooking true 1 7 0 2 100 cleanWorld).2.1).1.isOk = true ∧
    (cancelBooking true 0 100 7
        (createBooking true 1 7 0 2 100 cleanWorld).2.1).2.db.slots =
      releaseAvailabilitySlots 1 0 2 cleanWorld.db.slots :=
  createBooking_cancelBooking_roundTrip 1 7 0 2 100 cleanWorld 0
    (by decide) (by decide) (by decide) (by decide)

end Rezo
